import Mathlib

/-!
Shallow embedding of the `rust-tls-duplex-stream` library.

The source is a Rust crate with four modules:
* `src/queue.rs` — a bounded, double-watermarked FIFO of byte chunks with a
  permanent `dead` flag, guarded by a mutex plus condition variable;
* `src/read_pipe.rs` — the consumer side (`ReadPipe`) of the read pump;
* `src/write_pipe.rs` — the producer side (`WritePipe`) of the write pump;
* `src/lib.rs` — the duplex facade and the `CombinedPipe` transport adapter.

The embedding models each operation as a pure function on an explicit state.
Blocking operations are modelled in a quiescent environment (no other thread
mutates the state during a wait): a condition-variable wait that would never
be satisfied is the `blocked` outcome, and a wait with a timeout that would
never be satisfied is the `timedOut` error, mirroring the `while` loops of
`queue.rs` literally.  Byte buffers are `List Nat`; mutex guards carry no
data beyond the protected state, so functions return the (possibly updated)
state explicitly.
-/

namespace TlsDuplex

/-- A byte chunk (`Vec<u8>` in the source). -/
abbrev Chunk := List Nat

/-- The `std::io::ErrorKind` values the library distinguishes. -/
inductive ErrorKind where
  | brokenPipe
  | timedOut
  | wouldBlock
  | other
deriving DecidableEq

/-- Outcome of an operation that may block on the condition variable.
`blocked` is the quiescent-environment reading of a wait that would never
be woken. -/
inductive BResult (α : Type) where
  | ok : α → BResult α
  | err : ErrorKind → BResult α
  | blocked : BResult α
deriving DecidableEq

/-- Source `const HIGH_WATERMARK: usize = 8096` from `queue.rs`. -/
def HIGH_WATERMARK : Nat := 8096

/-- Source `const LOW_WATERMARK: usize = 4096` from `queue.rs`. -/
def LOW_WATERMARK : Nat := 4096

/-- The `Queue` struct of `queue.rs`: the `dead` flag and the
`VecDeque<Vec<u8>>` buffer.  The condition variable carries no state. -/
structure Queue where
  dead : Bool
  buffer : List Chunk
deriving DecidableEq

/-- Source `Queue::kill`: store `true` into the dead flag (and notify waiters). -/
def Queue.kill (q : Queue) : Queue :=
  { q with dead := true }

/-- Source `Queue::flush_count`: wait while `buffer.len() > count`; inside the loop
first check `dead` (broken pipe), then wait — with a timeout the quiescent
wait times out, without one it blocks forever.  After the loop re-check
`dead`; on success return the guard (the buffer is not modified). -/
def Queue.flush_count (q : Queue) (count : Nat) (timeout : Option Nat) :
    BResult Unit :=
  if q.buffer.length > count then
    if q.dead then .err .brokenPipe
    else
      match timeout with
      | some _ => .err .timedOut
      | none => .blocked
  else if q.dead then .err .brokenPipe
  else .ok ()

/-- Source `Queue::flush_low`: `flush_count(LOW_WATERMARK, timeout)`. -/
def Queue.flush_low (q : Queue) (timeout : Option Nat) : BResult Unit :=
  q.flush_count LOW_WATERMARK timeout

/-- Source `Queue::flush_zero`: `flush_count(0, None)`. -/
def Queue.flush_zero (q : Queue) : BResult Unit :=
  q.flush_count 0 none

/-- Source `Queue::await_pop`: release the external guard, then wait while the
buffer is empty, checking `dead` first on each round; return `Ok(())`
without consuming anything once the buffer is (or becomes) non-empty. -/
def Queue.await_pop (q : Queue) (duration : Option Nat) :
    BResult Unit × Queue :=
  if q.buffer.isEmpty then
    if q.dead then (.err .brokenPipe, q)
    else
      match duration with
      | some _ => (.err .timedOut, q)
      | none => (.blocked, q)
  else (.ok (), q)

/-- Source `Queue::try_pop`: `pop_front` first (a present element is returned even
on a dead queue), then fail with broken pipe if dead, else `Ok(None)`. -/
def Queue.try_pop (q : Queue) : Except ErrorKind (Option Chunk) × Queue :=
  match q.buffer with
  | data :: rest => (.ok (some data), { q with buffer := rest })
  | [] =>
    if q.dead then (.error .brokenPipe, q)
    else (.ok none, q)

/-- Source `Queue::pop`: loop — `pop_front` if possible, else fail if dead, else
wait (forever, in a quiescent environment). -/
def Queue.pop (q : Queue) : BResult Chunk × Queue :=
  match q.buffer with
  | data :: rest => (.ok data, { q with buffer := rest })
  | [] =>
    if q.dead then (.err .brokenPipe, q)
    else (.blocked, q)

/-- Source `Queue::push`: `flush_count(HIGH_WATERMARK, None)`, then `push_back`. -/
def Queue.push (q : Queue) (data : Chunk) : BResult Unit × Queue :=
  match q.flush_count HIGH_WATERMARK none with
  | .ok () => (.ok (), { q with buffer := q.buffer ++ [data] })
  | .err e => (.err e, q)
  | .blocked => (.blocked, q)

/-- Source `OnceLock::set`: the write-once error slot keeps its first value. -/
def onceLockSet (slot : Option ErrorKind) (v : ErrorKind) : Option ErrorKind :=
  match slot with
  | some e => some e
  | none => some v

/-- The `ReadPipe` struct of `read_pipe.rs` together with the queue and the
write-once error slot of its shared `ReadPipeInner`.  `cursor` holds the
bytes of the cursor that are still unread. -/
structure ReadPipe where
  eof : Bool
  nb : Bool
  queue : Queue
  error : Option ErrorKind
  cursor : Chunk
deriving DecidableEq

/-- The `ReadPipe` produced by `ReadPipe::new` on success: `nb` and `eof`
false, default (alive, empty) queue, empty error slot, default cursor. -/
def ReadPipe.init : ReadPipe :=
  { eof := false, nb := false, queue := { dead := false, buffer := [] },
    error := none, cursor := [] }

/-- Source `ReadPipe::fetch_err`: kill the queue, then return the stored error
kind, defaulting to `BrokenPipe`. -/
def ReadPipe.fetch_err (rp : ReadPipe) : ErrorKind × ReadPipe :=
  let rp2 := { rp with queue := rp.queue.kill }
  match rp2.error with
  | some e => (e, rp2)
  | none => (.brokenPipe, rp2)

/-- One round of the `loop` in `<ReadPipe as Read>::read` (the entry checks
on `eof`/empty buffer are done by `ReadPipe.read`).  `.inl` is a `return`
from the loop, `.inr` is a `continue` with the refilled cursor.  `bufLen`
is the length of the caller's buffer; `cursor.read` yields
`min bufLen cursor.length` bytes. -/
def ReadPipe.readIter (rp : ReadPipe) (bufLen : Nat) :
    (BResult Nat × ReadPipe) ⊕ ReadPipe :=
  let size := min bufLen rp.cursor.length
  if size ≠ 0 then
    .inl (.ok size, { rp with cursor := rp.cursor.drop size })
  else if rp.nb then
    match rp.queue.try_pop with
    | (.ok (some data), q2) =>
      if data.isEmpty then .inl (.ok 0, { rp with queue := q2, eof := true })
      else .inr { rp with queue := q2, cursor := data }
    | (.ok none, q2) => .inl (.err .wouldBlock, { rp with queue := q2 })
    | (.error e, q2) =>
      let rp2 := { rp with queue := q2, error := onceLockSet rp.error e }
      let fe := rp2.fetch_err
      .inl (.err fe.1, fe.2)
  else
    match rp.queue.pop with
    | (.ok data, q2) =>
      if data.isEmpty then .inl (.ok 0, { rp with queue := q2, eof := true })
      else .inr { rp with queue := q2, cursor := data }
    | (.err e, q2) =>
      let rp2 := { rp with queue := q2, error := onceLockSet rp.error e }
      let fe := rp2.fetch_err
      .inl (.err fe.1, fe.2)
    | (.blocked, q2) => .inl (.blocked, { rp with queue := q2 })

/-- Source `<ReadPipe as Read>::read`: the loop body runs at most twice for a
non-empty buffer: a `continue` refills the cursor with a non-empty chunk,
so the next `cursor.read` returns a positive count and the iteration
returns; the final fallback is therefore unreachable. -/
def ReadPipe.read (rp : ReadPipe) (bufLen : Nat) : BResult Nat × ReadPipe :=
  if rp.eof || bufLen == 0 then (.ok 0, rp)
  else
    match rp.readIter bufLen with
    | .inl r => r
    | .inr rp2 =>
      match rp2.readIter bufLen with
      | .inl r => r
      | .inr rp3 => (.blocked, rp3)

/-- The `WritePipe` struct of `write_pipe.rs` (its `WritePipeInner`). -/
structure WritePipe where
  queue : Queue
  error : Option ErrorKind
deriving DecidableEq

/-- The `WritePipe` produced by `WritePipe::new` on success. -/
def WritePipe.init : WritePipe :=
  { queue := { dead := false, buffer := [] }, error := none }

/-- Source `WritePipe::fetch_err`: kill the queue, then return the stored error
kind, defaulting to `BrokenPipe`. -/
def WritePipe.fetch_err (wp : WritePipe) : ErrorKind × WritePipe :=
  let wp2 := { wp with queue := wp.queue.kill }
  match wp2.error with
  | some e => (e, wp2)
  | none => (.brokenPipe, wp2)

/-- Source `<WritePipe as Write>::write`: push `buf` as one chunk; on success
report `buf.len()`; on a push error record it and surface `fetch_err`. -/
def WritePipe.write (wp : WritePipe) (buf : Chunk) : BResult Nat × WritePipe :=
  match wp.queue.push buf with
  | (.ok _, q2) => (.ok buf.length, { wp with queue := q2 })
  | (.err e, q2) =>
    let wp2 := { wp with queue := q2, error := onceLockSet wp.error e }
    let fe := wp2.fetch_err
    (.err fe.1, fe.2)
  | (.blocked, q2) => (.blocked, { wp with queue := q2 })

/-- Source `<WritePipe as Write>::flush`: intentionally a no-op, `Ok(())`. -/
def WritePipe.flush (wp : WritePipe) : BResult Unit × WritePipe :=
  (.ok (), wp)

/-- The `CombinedPipe(ReadPipe, WritePipe)` adapter of `lib.rs`. -/
structure CombinedPipe where
  rp : ReadPipe
  wp : WritePipe
deriving DecidableEq

/-- Source `ReadPipe::new`: invoke the spawner once (`spawn i` is the result of its
`i`-th invocation, `calls` counts invocations so far); propagate a spawn
error, otherwise return the fresh pipe. -/
def ReadPipe.new (spawn : Nat → Except ErrorKind Unit) (calls : Nat) :
    Except ErrorKind ReadPipe × Nat :=
  match spawn calls with
  | .ok _ => (.ok ReadPipe.init, calls + 1)
  | .error e => (.error e, calls + 1)

/-- Source `WritePipe::new`: invoke the spawner once; propagate a spawn error,
otherwise return the fresh pipe. -/
def WritePipe.new (spawn : Nat → Except ErrorKind Unit) (calls : Nat) :
    Except ErrorKind WritePipe × Nat :=
  match spawn calls with
  | .ok _ => (.ok WritePipe.init, calls + 1)
  | .error e => (.error e, calls + 1)

/-- Source `CombinedPipe::new`: `ReadPipe::new(read, &mut spawner)?` then
`WritePipe::new(write, &mut spawner)?` — the `?` short-circuits, so a
failed first spawn never reaches the second. -/
def CombinedPipe.new (spawn : Nat → Except ErrorKind Unit) (calls : Nat) :
    Except ErrorKind CombinedPipe × Nat :=
  match ReadPipe.new spawn calls with
  | (.error e, c1) => (.error e, c1)
  | (.ok r, c1) =>
    match WritePipe.new spawn c1 with
    | (.error e, c2) => (.error e, c2)
    | (.ok w, c2) => (.ok { rp := r, wp := w }, c2)

/-- Outcome of one iteration of the `loop` in
`RustTlsDuplexStream::read`: a `return`, a `continue`, or an
unbounded block inside `await_pop`. -/
inductive FacadeStep where
  | ret : BResult Nat → FacadeStep
  | retry : FacadeStep
  | blockedForever : FacadeStep
deriving DecidableEq

/-- The tail of one iteration of the `loop` in `RustTlsDuplexStream::read`
(`lib.rs` lines 158–184), given the engine call's result `er`: set
`sock.0.nb(false)` on the adapter the engine returned, then dispatch —
`Ok` returns; an error returns as-is when the facade is in non-blocking
mode; `WouldBlock` otherwise waits via `await_pop` on the read queue
(which is the `ReadPipe`'s own queue) and retries; other errors return. -/
def facadeDispatch (nonBlockingRead : Bool) (readTimeout : Option Nat)
    (er : Except ErrorKind Nat × CombinedPipe) : FacadeStep × CombinedPipe :=
  let cp3 := { er.2 with rp := { er.2.rp with nb := false } }
  match er.1 with
  | .ok n => (.ret (.ok n), cp3)
  | .error e =>
    if nonBlockingRead then (.ret (.err e), cp3)
    else if e = .wouldBlock then
      match (cp3.rp.queue.await_pop readTimeout).1 with
      | .ok _ => (.retry, cp3)
      | .err e2 => (.ret (.err e2), cp3)
      | .blocked => (.blockedForever, cp3)
    else (.ret (.err e), cp3)

/-- One iteration of the `loop` in `RustTlsDuplexStream::read` (`lib.rs`
lines 154–186): set `sock.0.nb(true)`, run the engine's `read` (the rustls
`StreamOwned::read`, an external collaborator modelled as an arbitrary
function of the adapter), then hand its result to `facadeDispatch`. -/
def facadeReadStep (engine : CombinedPipe → Except ErrorKind Nat × CombinedPipe)
    (nonBlockingRead : Bool) (readTimeout : Option Nat) (cp : CombinedPipe) :
    FacadeStep × CombinedPipe :=
  facadeDispatch nonBlockingRead readTimeout
    (engine { cp with rp := { cp.rp with nb := true } })

/-- The queue operations, as symbols, for stating trace properties over
arbitrary interleavings of calls on one queue. -/
inductive QOp where
  | push : Chunk → QOp
  | pop : QOp
  | try_pop : QOp
  | await_pop : Option Nat → QOp
  | flush_low : Option Nat → QOp
  | flush_zero : QOp
  | kill : QOp
deriving DecidableEq

/-- The queue state after one operation (`flush_low`/`flush_zero` return
only a guard and never modify the buffer or the flag). -/
def applyOp (q : Queue) : QOp → Queue
  | .push c => (q.push c).2
  | .pop => (q.pop).2
  | .try_pop => (q.try_pop).2
  | .await_pop t => (q.await_pop t).2
  | .flush_low _ => q
  | .flush_zero => q
  | .kill => q.kill

/-- A queue together with the histories of successfully pushed and
successfully popped chunks. -/
structure TraceState where
  q : Queue
  pushed : List Chunk
  popped : List Chunk
deriving DecidableEq

/-- Run one operation, recording a chunk in `pushed` when `push` succeeds
and in `popped` when `pop`/`try_pop` return a chunk. -/
def stepOp (s : TraceState) : QOp → TraceState
  | .push c =>
    match s.q.push c with
    | (.ok _, q2) => { q := q2, pushed := s.pushed ++ [c], popped := s.popped }
    | (_, q2) => { s with q := q2 }
  | .pop =>
    match s.q.pop with
    | (.ok c, q2) => { q := q2, pushed := s.pushed, popped := s.popped ++ [c] }
    | (_, q2) => { s with q := q2 }
  | .try_pop =>
    match s.q.try_pop with
    | (.ok (some c), q2) =>
      { q := q2, pushed := s.pushed, popped := s.popped ++ [c] }
    | (_, q2) => { s with q := q2 }
  | op => { s with q := applyOp s.q op }

/-- Run a whole sequence of operations. -/
def runOps (s : TraceState) (ops : List QOp) : TraceState :=
  ops.foldl stepOp s

/-- The trace on a fresh queue: alive, empty, no history. -/
def initialTrace : TraceState :=
  { q := { dead := false, buffer := [] }, pushed := [], popped := [] }

/-- A `push` succeeds exactly on an alive queue whose length is at or below
the high watermark, and then appends the chunk at the back. -/
theorem Queue.push_eq_ok_iff (q : Queue) (c : Chunk) (q' : Queue) :
    q.push c = (.ok (), q') ↔
      q.dead = false ∧ q.buffer.length ≤ HIGH_WATERMARK ∧
        q' = { q with buffer := q.buffer ++ [c] } := by
  by_cases hl : q.buffer.length > HIGH_WATERMARK
  · cases hd : q.dead <;>
      simp [Queue.push, Queue.flush_count, hd, hl, Nat.not_le.mpr hl]
  · cases hd : q.dead <;>
      simp [Queue.push, Queue.flush_count, hd, hl, Nat.not_lt.mp hl, eq_comm]

/-- A `push` that does not succeed leaves the queue unchanged. -/
theorem Queue.push_not_ok (q : Queue) (c : Chunk)
    (h : ∀ u, (q.push c).1 ≠ .ok u) : (q.push c).2 = q := by
  cases hf : q.flush_count HIGH_WATERMARK none with
  | ok u =>
    cases u
    exact absurd (by simp [Queue.push, hf]) (h ())
  | err e => simp [Queue.push, hf]
  | blocked => simp [Queue.push, hf]

/-- Claim C1, amended: for every push call, at the moment `push` returns
successfully the pre-append length was at most the high watermark, the new
chunk is appended, and the resulting length is at most the high watermark
plus one (a post-push length of `HIGH_WATERMARK + 1` is reachable, see the
counterexample). -/
theorem push_length_bounded_by_watermark_plus_one (q : Queue) (c : Chunk)
    (q' : Queue) (h : q.push c = (.ok (), q')) :
    q.buffer.length ≤ HIGH_WATERMARK ∧
      q'.buffer = q.buffer ++ [c] ∧
      q'.buffer.length ≤ HIGH_WATERMARK + 1 := by
  obtain ⟨-, hl, rfl⟩ := (Queue.push_eq_ok_iff q c q').mp h
  refine ⟨hl, rfl, ?_⟩
  simpa using Nat.add_le_add_right hl 1

/-- Witness for the amended Claim C1 at a concrete input. -/
theorem push_length_bounded_by_watermark_plus_one_witness :
    (Queue.mk false []).buffer.length ≤ HIGH_WATERMARK ∧
      (Queue.mk false [[7]]).buffer = (Queue.mk false []).buffer ++ [[7]] ∧
      (Queue.mk false [[7]]).buffer.length ≤ HIGH_WATERMARK + 1 :=
  push_length_bounded_by_watermark_plus_one (Queue.mk false []) [7]
    (Queue.mk false [[7]]) (by decide)

/-- Claim C1 counterexample: on an alive queue already holding exactly
`HIGH_WATERMARK` chunks, `push` returns successfully and the queue length
at that moment is `HIGH_WATERMARK + 1 = 8097`, exceeding the high
watermark. -/
theorem push_can_exceed_high_watermark :
    ((Queue.mk false (List.replicate 8096 [])).push [1]).1 = .ok () ∧
      ((Queue.mk false (List.replicate 8096 [])).push [1]).2.buffer.length =
        HIGH_WATERMARK + 1 ∧
      ¬ ((Queue.mk false (List.replicate 8096 [])).push [1]).2.buffer.length ≤
          HIGH_WATERMARK := by
  have h := (Queue.push_eq_ok_iff (Queue.mk false (List.replicate 8096 [])) [1]
      (Queue.mk false (List.replicate 8096 [] ++ [[1]]))).mpr
    ⟨rfl, by rw [List.length_replicate]; decide, rfl⟩
  rw [h]
  refine ⟨rfl, ?_, ?_⟩
  · show (List.replicate 8096 ([] : Chunk) ++ [[1]]).length = HIGH_WATERMARK + 1
    rw [List.length_append, List.length_replicate]
    decide
  · show ¬ (List.replicate 8096 ([] : Chunk) ++ [[1]]).length ≤ HIGH_WATERMARK
    rw [List.length_append, List.length_replicate]
    decide

/-- An `await_pop` returns the queue unchanged on every outcome. -/
theorem Queue.await_pop_state (q : Queue) (t : Option Nat) :
    (q.await_pop t).2 = q := by
  unfold Queue.await_pop
  split
  · split
    · rfl
    · split <;> rfl
  · rfl

/-- Claim C2, amended: `await_pop` never consumes an element (the queue
state is returned unchanged on every outcome); it fails with broken pipe
when the queue is empty and dead (a dead queue that still holds chunks
returns `Ok`, see the counterexample); and with a timeout set it fails
with `TimedOut` when the queue is empty, alive, and no data ever arrives. -/
theorem await_pop_spec (q : Queue) (t : Option Nat) :
    (q.await_pop t).2 = q ∧
      (q.buffer = [] → q.dead = true → (q.await_pop t).1 = .err .brokenPipe) ∧
      (∀ d, q.buffer = [] → q.dead = false → t = some d →
        (q.await_pop t).1 = .err .timedOut) := by
  refine ⟨Queue.await_pop_state q t, ?_, ?_⟩
  · intro hb hd
    simp [Queue.await_pop, hb, hd]
  · intro d hb hd ht
    simp [Queue.await_pop, hb, hd, ht]

/-- Witness for the amended Claim C2 at concrete inputs. -/
theorem await_pop_spec_witness :
    ((Queue.mk true []).await_pop none).1 = .err .brokenPipe ∧
      ((Queue.mk false []).await_pop (some 5)).1 = .err .timedOut ∧
      ((Queue.mk false [[3]]).await_pop none).2 = Queue.mk false [[3]] :=
  ⟨(await_pop_spec (Queue.mk true []) none).2.1 rfl rfl,
   (await_pop_spec (Queue.mk false []) (some 5)).2.2 5 rfl rfl rfl,
   (await_pop_spec (Queue.mk false [[3]]) none).1⟩

/-- Claim C2 counterexample: on a queue that is dead but still non-empty,
`await_pop` does not fail with a broken-pipe error — it returns `Ok`
(the dead check sits inside the while-empty loop, which is skipped). -/
theorem await_pop_dead_nonempty_succeeds :
    (Queue.mk true [[0]]).dead = true ∧
      (Queue.mk true [[0]]).await_pop none = (.ok (), Queue.mk true [[0]]) := by
  decide

/-- No queue operation ever clears the dead flag. -/
theorem applyOp_dead_mono (q : Queue) (op : QOp) (h : q.dead = true) :
    (applyOp q op).dead = true := by
  cases op <;>
    simp only [applyOp, Queue.push, Queue.flush_count, Queue.pop,
      Queue.try_pop, Queue.await_pop, Queue.kill, h] <;>
    repeat' first
      | rfl
      | exact h
      | split

/-- Claim C3: the dead state is permanent and monotonic — `kill` is
idempotent, no operation clears the flag, and on a dead queue every
`push`, every `pop`/`await_pop` on an empty buffer, and every
`flush_low`/`flush_zero` fails with a broken-pipe error. -/
theorem dead_is_permanent (q : Queue) :
    (q.kill).kill = q.kill ∧
      (∀ op : QOp, q.dead = true → (applyOp q op).dead = true) ∧
      (q.dead = true →
        (∀ c, (q.push c).1 = .err .brokenPipe) ∧
        (q.buffer = [] → (q.pop).1 = .err .brokenPipe) ∧
        (q.buffer = [] → ∀ t, (q.await_pop t).1 = .err .brokenPipe) ∧
        (∀ t, q.flush_low t = .err .brokenPipe) ∧
        q.flush_zero = .err .brokenPipe) := by
  refine ⟨rfl, fun op h => applyOp_dead_mono q op h, fun h => ⟨?_, ?_, ?_, ?_, ?_⟩⟩
  · intro c
    simp [Queue.push, Queue.flush_count, h, ite_self]
  · intro hb
    simp [Queue.pop, hb, h]
  · intro hb t
    simp [Queue.await_pop, hb, h]
  · intro t
    simp [Queue.flush_low, Queue.flush_count, h, ite_self]
  · simp [Queue.flush_zero, Queue.flush_count, h, ite_self]

/-- Witness for Claim C3 at a concrete dead queue. -/
theorem dead_is_permanent_witness :
    ((Queue.mk true []).push [0]).1 = .err .brokenPipe ∧
      ((Queue.mk true []).pop).1 = .err .brokenPipe ∧
      ((Queue.mk true []).await_pop none).1 = .err .brokenPipe ∧
      (Queue.mk true []).flush_low (some 1) = .err .brokenPipe ∧
      (Queue.mk true []).flush_zero = .err .brokenPipe ∧
      (applyOp (Queue.mk true []) .try_pop).dead = true :=
  have h := dead_is_permanent (Queue.mk true [])
  ⟨(h.2.2 rfl).1 [0], (h.2.2 rfl).2.1 rfl, (h.2.2 rfl).2.2.1 rfl none,
   (h.2.2 rfl).2.2.2.1 (some 1), (h.2.2 rfl).2.2.2.2, h.2.1 .try_pop rfl⟩

/-- Claim C8: `try_pop` is a total non-blocking trichotomy — a non-empty
queue yields its oldest chunk (dead or not), an empty alive queue yields
`Ok(None)`, and an empty dead queue fails with broken pipe. -/
theorem try_pop_trichotomy (q : Queue) :
    (∀ c rest, q.buffer = c :: rest →
      q.try_pop = (.ok (some c), { q with buffer := rest })) ∧
      (q.buffer = [] → q.dead = false → q.try_pop = (.ok none, q)) ∧
      (q.buffer = [] → q.dead = true → q.try_pop = (.error .brokenPipe, q)) := by
  refine ⟨?_, ?_, ?_⟩
  · intro c rest hb
    simp [Queue.try_pop, hb]
  · intro hb hd
    simp [Queue.try_pop, hb, hd]
  · intro hb hd
    simp [Queue.try_pop, hb, hd]

/-- Witness for Claim C8: all three branches at concrete queues. -/
theorem try_pop_trichotomy_witness :
    (Queue.mk true [[5], [6]]).try_pop =
        (.ok (some [5]), Queue.mk true [[6]]) ∧
      (Queue.mk false []).try_pop = (.ok none, Queue.mk false []) ∧
      (Queue.mk true []).try_pop = (.error .brokenPipe, Queue.mk true []) :=
  ⟨(try_pop_trichotomy (Queue.mk true [[5], [6]])).1 [5] [[6]] rfl,
   (try_pop_trichotomy (Queue.mk false [])).2.1 rfl rfl,
   (try_pop_trichotomy (Queue.mk true [])).2.2 rfl rfl⟩

/-- Claim C10: on a dead queue `flush_low` and `flush_zero` fail with a
broken-pipe error unconditionally — in particular even when the watermark
condition is already satisfied (length at or below the low watermark, or
an empty buffer), because the dead flag is re-checked after the wait
loop. -/
theorem flush_dead_fails (q : Queue) (t : Option Nat) (h : q.dead = true) :
    q.flush_low t = .err .brokenPipe ∧
      q.flush_zero = .err .brokenPipe ∧
      (q.buffer.length ≤ LOW_WATERMARK → q.flush_low t = .err .brokenPipe) ∧
      (q.buffer = [] → q.flush_zero = .err .brokenPipe) := by
  have hl : q.flush_low t = .err .brokenPipe := by
    simp [Queue.flush_low, Queue.flush_count, h, ite_self]
  have hz : q.flush_zero = .err .brokenPipe := by
    simp [Queue.flush_zero, Queue.flush_count, h, ite_self]
  exact ⟨hl, hz, fun _ => hl, fun _ => hz⟩

/-- Witness for Claim C10: a queue that is both dead and empty — both
watermark conditions hold trivially, yet both flushes fail. -/
theorem flush_dead_fails_witness :
    (Queue.mk true []).flush_low none = .err .brokenPipe ∧
      (Queue.mk true []).flush_zero = .err .brokenPipe :=
  have h := flush_dead_fails (Queue.mk true []) none rfl
  ⟨h.2.2.1 (by decide), h.2.2.2 rfl⟩

/-- One trace step preserves the FIFO accounting invariant: the pushed
history is the popped history followed by the current buffer contents. -/
theorem stepOp_preserves (s : TraceState) (op : QOp)
    (h : s.pushed = s.popped ++ s.q.buffer) :
    (stepOp s op).pushed = (stepOp s op).popped ++ (stepOp s op).q.buffer := by
  cases op with
  | push c =>
    rcases hp : s.q.push c with ⟨r, q2⟩
    cases r with
    | ok u =>
      cases u
      obtain ⟨-, -, rfl⟩ := (Queue.push_eq_ok_iff s.q c q2).mp hp
      simp [stepOp, hp, h]
    | err e =>
      have hq : q2 = s.q := by
        have h2 := Queue.push_not_ok s.q c (by simp [hp])
        rw [hp] at h2
        exact h2
      subst hq
      simp [stepOp, hp, h]
    | blocked =>
      have hq : q2 = s.q := by
        have h2 := Queue.push_not_ok s.q c (by simp [hp])
        rw [hp] at h2
        exact h2
      subst hq
      simp [stepOp, hp, h]
  | pop =>
    cases hb : s.q.buffer with
    | nil =>
      rw [hb] at h
      cases hd : s.q.dead <;> simp [stepOp, Queue.pop, hb, hd, h]
    | cons c rest =>
      rw [hb] at h
      simp [stepOp, Queue.pop, hb, h]
  | try_pop =>
    cases hb : s.q.buffer with
    | nil =>
      rw [hb] at h
      cases hd : s.q.dead <;> simp [stepOp, Queue.try_pop, hb, hd, h]
    | cons c rest =>
      rw [hb] at h
      simp [stepOp, Queue.try_pop, hb, h]
  | await_pop t =>
    simpa [stepOp, applyOp, Queue.await_pop_state] using h
  | flush_low t =>
    simpa [stepOp, applyOp] using h
  | flush_zero =>
    simpa [stepOp, applyOp] using h
  | kill =>
    simpa [stepOp, applyOp, Queue.kill] using h

/-- The FIFO accounting invariant is preserved by whole sequences. -/
theorem runOps_preserves (ops : List QOp) (s : TraceState)
    (h : s.pushed = s.popped ++ s.q.buffer) :
    (runOps s ops).pushed =
      (runOps s ops).popped ++ (runOps s ops).q.buffer := by
  induction ops generalizing s with
  | nil => simpa [runOps] using h
  | cons op rest ih =>
    simpa [runOps] using ih (stepOp s op) (stepOp_preserves s op h)

/-- Claim C5: the queue is FIFO — for every interleaved sequence of
operations starting from a fresh queue, the successfully pushed chunks are
exactly the successfully popped chunks followed by the chunks still
buffered, in order: nothing is duplicated, dropped, or reordered. -/
theorem queue_fifo (ops : List QOp) :
    (runOps initialTrace ops).pushed =
      (runOps initialTrace ops).popped ++ (runOps initialTrace ops).q.buffer :=
  runOps_preserves ops initialTrace rfl

/-- Claim C4: EOF is idempotent and permanent — once the `eof` flag is set
every `read` returns `Ok(0)` and leaves the whole pipe state (queue
included) untouched; and consuming the empty sentinel chunk from the queue
is what sets the flag while also returning `Ok(0)`. -/
theorem read_eof_permanent (rp : ReadPipe) (bufLen : Nat) :
    (rp.eof = true → rp.read bufLen = (.ok 0, rp)) ∧
      (∀ rest, rp.eof = false → bufLen ≠ 0 → rp.cursor = [] → rp.nb = false →
        rp.queue.buffer = [] :: rest →
        rp.read bufLen =
          (.ok 0, { rp with eof := true,
                            queue := { rp.queue with buffer := rest } })) := by
  constructor
  · intro he
    simp [ReadPipe.read, he]
  · intro rest he hb hc hn hq
    have hb2 : (bufLen == 0) = false := by
      simpa using hb
    simp [ReadPipe.read, ReadPipe.readIter, Queue.pop, he, hb2, hc, hn, hq]

/-- Witness for Claim C4: a pipe with the flag set, and a pipe about to
consume the sentinel, at concrete states. -/
theorem read_eof_permanent_witness :
    ReadPipe.read
        { eof := true, nb := false, queue := Queue.mk false [[9]],
          error := none, cursor := [1, 2] } 4 =
      (.ok 0, { eof := true, nb := false, queue := Queue.mk false [[9]],
                error := none, cursor := [1, 2] }) ∧
      ReadPipe.read
          { eof := false, nb := false, queue := Queue.mk false [[], [9]],
            error := none, cursor := [] } 4 =
        (.ok 0, { eof := true, nb := false, queue := Queue.mk false [[9]],
                  error := none, cursor := [] }) :=
  ⟨(read_eof_permanent
      { eof := true, nb := false, queue := Queue.mk false [[9]],
        error := none, cursor := [1, 2] } 4).1 rfl,
   (read_eof_permanent
      { eof := false, nb := false, queue := Queue.mk false [[], [9]],
        error := none, cursor := [] } 4).2 [[9]] rfl (by decide) rfl rfl rfl⟩

/-- Claim C6: a successful `WritePipe::write(buf)` appends exactly the one
chunk `buf` to the write queue and immediately reports `buf.len()` as
written, and `WritePipe::flush` is a no-op returning `Ok(())`. -/
theorem write_appends_chunk (wp : WritePipe) (buf : Chunk) (q2 : Queue)
    (h : wp.queue.push buf = (.ok (), q2)) :
    wp.write buf = (.ok buf.length, { wp with queue := q2 }) ∧
      q2.buffer = wp.queue.buffer ++ [buf] ∧
      wp.flush = (.ok (), wp) := by
  obtain ⟨-, -, rfl⟩ := (Queue.push_eq_ok_iff wp.queue buf q2).mp h
  exact ⟨by simp [WritePipe.write, h], rfl, rfl⟩

/-- Witness for Claim C6 at a concrete pipe and buffer. -/
theorem write_appends_chunk_witness :
    WritePipe.write { queue := Queue.mk false [[1]], error := none } [2, 3] =
        (.ok 2, { queue := Queue.mk false [[1], [2, 3]], error := none }) ∧
      (Queue.mk false [[1], [2, 3]]).buffer = [[1]] ++ [[2, 3]] ∧
      WritePipe.flush { queue := Queue.mk false [[1]], error := none } =
        (.ok (), { queue := Queue.mk false [[1]], error := none }) :=
  write_appends_chunk { queue := Queue.mk false [[1]], error := none } [2, 3]
    (Queue.mk false [[1], [2, 3]]) (by decide)

/-- Claim C7: in every iteration of the facade's `read` loop the adapter's
non-blocking toggle is true exactly for the engine call: the engine is
invoked on the adapter with the toggle set (the step depends on the engine
only through its value there), and on every path — success, `WouldBlock`
with retry or wait failure, any other error — the adapter state after the
step has the toggle cleared. -/
theorem facade_read_nb_discipline
    (engine engine2 : CombinedPipe → Except ErrorKind Nat × CombinedPipe)
    (nonBlockingRead : Bool) (readTimeout : Option Nat) (cp : CombinedPipe)
    (h : engine { cp with rp := { cp.rp with nb := true } } =
      engine2 { cp with rp := { cp.rp with nb := true } }) :
    ({ cp with rp := { cp.rp with nb := true } } : CombinedPipe).rp.nb = true ∧
      (facadeReadStep engine nonBlockingRead readTimeout cp).2.rp.nb = false ∧
      facadeReadStep engine nonBlockingRead readTimeout cp =
        facadeReadStep engine2 nonBlockingRead readTimeout cp := by
  have hd : ∀ er : Except ErrorKind Nat × CombinedPipe,
      (facadeDispatch nonBlockingRead readTimeout er).2.rp.nb = false := by
    intro er
    rcases er with ⟨r, cp2⟩
    cases r with
    | ok n => rfl
    | error e =>
      simp only [facadeDispatch]
      split
      · rfl
      · split
        · split <;> rfl
        · rfl
  refine ⟨rfl, hd _, ?_⟩
  unfold facadeReadStep
  rw [h]

/-- Witness for Claim C7 at a concrete engine and adapter state. -/
theorem facade_read_nb_discipline_witness :
    (facadeReadStep (fun c => (.ok 0, c)) false none
        { rp := ReadPipe.init, wp := WritePipe.init }).2.rp.nb = false ∧
      facadeReadStep (fun c => (.ok 0, c)) false none
          { rp := ReadPipe.init, wp := WritePipe.init } =
        facadeReadStep (fun c => (.ok 0, c)) false none
          { rp := ReadPipe.init, wp := WritePipe.init } :=
  have h := facade_read_nb_discipline (fun c => (.ok 0, c)) (fun c => (.ok 0, c))
    false none { rp := ReadPipe.init, wp := WritePipe.init } rfl
  ⟨h.2.1, h.2.2⟩

/-- Claim C9: during construction the spawner runs exactly twice when both
invocations succeed (call 0 for the read pump, call 1 for the write pump),
and when the first invocation fails the spawner is not invoked again and
construction fails with that very error. -/
theorem spawner_called_exactly_twice (spawn : Nat → Except ErrorKind Unit) :
    (spawn 0 = .ok () → spawn 1 = .ok () →
      CombinedPipe.new spawn 0 =
        (.ok { rp := ReadPipe.init, wp := WritePipe.init }, 2)) ∧
      (∀ e, spawn 0 = .error e → CombinedPipe.new spawn 0 = (.error e, 1)) := by
  constructor
  · intro h0 h1
    simp [CombinedPipe.new, ReadPipe.new, WritePipe.new, h0, h1]
  · intro e h0
    simp [CombinedPipe.new, ReadPipe.new, h0]

/-- Witness for Claim C9: an always-succeeding and a first-call-failing
spawner. -/
theorem spawner_called_exactly_twice_witness :
    CombinedPipe.new (fun _ => .ok ()) 0 =
        (.ok { rp := ReadPipe.init, wp := WritePipe.init }, 2) ∧
      CombinedPipe.new (fun _ => .error .other) 0 = (.error .other, 1) :=
  ⟨(spawner_called_exactly_twice (fun _ => .ok ())).1 rfl rfl,
   (spawner_called_exactly_twice (fun _ => .error .other)).2 .other rfl⟩

end TlsDuplex
